import Mathlib

/-!
Shallow embedding of the Warehouse-Location-Optimizer core
(facility_location_problem.py): the cost aggregator calculate_total_cost
and the optimizer optimize_with_history. Floats are modelled as real
numbers; the pandas column assignments of calculate_total_cost are made
explicit by returning the updated frames alongside the total. The external
geodesic-distance library and the external bounded minimizer are modelled
as described on their definitions.
-/

namespace FacilityLocation

/-- Earth radius in kilometres used by the great-circle distance model. -/
noncomputable def EARTH_RADIUS_KM : ℝ := 6371

/-- Degrees to radians. -/
noncomputable def toRadians (deg : ℝ) : ℝ := deg * Real.pi / 180

/-- Modelled from the spec: the distance function the code calls comes from
the external geopy library, not from this repository. The spec describes it
as the great-circle distance between two latitude/longitude points on a
spherical Earth model; this is the spherical law-of-cosines great-circle
formula. Points are (latitude, longitude) pairs in degrees. -/
noncomputable def distance_km (a b : ℝ × ℝ) : ℝ :=
  EARTH_RADIUS_KM * Real.arccos
    (Real.sin (toRadians a.1) * Real.sin (toRadians b.1) +
      Real.cos (toRadians a.1) * Real.cos (toRadians b.1) *
        Real.cos (toRadians a.2 - toRadians b.2))

/-- One row of the inbound or outbound shipments frame after the join: the
fixed node coordinates (the Latitude and Longitude columns), the shipped
volume (the Volume_m3 column), and the two derived columns Distance_km and
Cost that calculate_total_cost writes (none before the first call). -/
structure Row where
  latitude : ℝ
  longitude : ℝ
  volume : ℝ
  distanceCol : Option ℝ
  costCol : Option ℝ

/-- The inbound row update of calculate_total_cost: the Distance_km column
becomes the distance from the fixed node to the warehouse, and the Cost
column becomes Distance_km times distance_cost plus Volume_m3 times
volume_cost. -/
noncomputable def inboundRowUpdate (w : ℝ × ℝ) (distance_cost volume_cost : ℝ)
    (r : Row) : Row :=
  let d := distance_km (r.latitude, r.longitude) w
  { r with distanceCol := some d,
           costCol := some (d * distance_cost + r.volume * volume_cost) }

/-- The outbound row update of calculate_total_cost: the same columns, with
the distance computed from the warehouse to the fixed node (the opposite
argument order, as in the source). -/
noncomputable def outboundRowUpdate (w : ℝ × ℝ) (distance_cost volume_cost : ℝ)
    (r : Row) : Row :=
  let d := distance_km w (r.latitude, r.longitude)
  { r with distanceCol := some d,
           costCol := some (d * distance_cost + r.volume * volume_cost) }

/-- Sum of the Cost column of a frame. -/
noncomputable def costColumnSum (rows : List Row) : ℝ :=
  (rows.map (fun r => r.costCol.getD 0)).sum

/-- calculate_total_cost from facility_location_problem.py, with the
mutation of the two input frames made explicit: it returns the updated
inbound frame, the updated outbound frame (each with its Distance_km and
Cost columns overwritten) and the total cost, the sum of both Cost
columns. -/
noncomputable def calculate_total_cost (warehouse_coords : ℝ × ℝ)
    (inbound outbound : List Row) (distance_cost volume_cost : ℝ) :
    List Row × List Row × ℝ :=
  let inb := inbound.map (inboundRowUpdate warehouse_coords distance_cost volume_cost)
  let outb := outbound.map (outboundRowUpdate warehouse_coords distance_cost volume_cost)
  (inb, outb, costColumnSum inb + costColumnSum outb)

/-- calculate_total_cost called with the rates omitted, as the optimizer
calls it: the Python defaults distance_cost 0.5 and volume_cost 10. -/
noncomputable def calculate_total_cost_default (warehouse_coords : ℝ × ℝ)
    (inbound outbound : List Row) : List Row × List Row × ℝ :=
  calculate_total_cost warehouse_coords inbound outbound 0.5 10

/-- A row of the suppliers or customers frame: its Latitude and Longitude
columns. -/
structure Point where
  latitude : ℝ
  longitude : ℝ

/-- The Latitude column of a point frame. -/
def latitudes (ps : List Point) : List ℝ := ps.map Point.latitude

/-- The Longitude column of a point frame. -/
def longitudes (ps : List Point) : List ℝ := ps.map Point.longitude

/-- Column mean: sum divided by length. -/
noncomputable def colMean (xs : List ℝ) : ℝ := xs.sum / xs.length

/-- Column minimum (0 on an empty column, a modelling placeholder that no
claim relies on). -/
noncomputable def colMin : List ℝ → ℝ
  | [] => 0
  | x :: xs => xs.foldl min x

/-- Column maximum (0 on an empty column). -/
noncomputable def colMax : List ℝ → ℝ
  | [] => 0
  | x :: xs => xs.foldl max x

/-- The initial guess of optimize_with_history: the average of the mean
supplier and mean customer latitude, and the same for longitude. -/
noncomputable def initial_guess (suppliers customers : List Point) : ℝ × ℝ :=
  ((colMean (latitudes suppliers) + colMean (latitudes customers)) / 2,
   (colMean (longitudes suppliers) + colMean (longitudes customers)) / 2)

/-- The box bounds optimize_with_history passes to the solver, computed from
the suppliers frame alone: ((lat lower, lat upper), (lon lower, lon upper)). -/
noncomputable def boundsOf (suppliers : List Point) : (ℝ × ℝ) × (ℝ × ℝ) :=
  ((colMin (latitudes suppliers), colMax (latitudes suppliers)),
   (colMin (longitudes suppliers), colMax (longitudes suppliers)))

/-- Membership of a point in a bounds box. -/
def inBox (b : (ℝ × ℝ) × (ℝ × ℝ)) (p : ℝ × ℝ) : Prop :=
  b.1.1 ≤ p.1 ∧ p.1 ≤ b.1.2 ∧ b.2.1 ≤ p.2 ∧ p.2 ≤ b.2.2

/-- The objective lambda optimize_with_history hands to the solver: the
total of calculate_total_cost at the candidate coordinates with the default
rates. -/
noncomputable def objective (inbound outbound : List Row) (coords : ℝ × ℝ) : ℝ :=
  (calculate_total_cost_default coords inbound outbound).2.2

/-- What the external minimizer returns, as the code consumes it: the final
iterate x, the objective value fval at x, the success flag, together with
the points at which the solver evaluated the objective (evals) and the
accepted iterates handed to the callback (iterates). -/
structure SolverResult where
  x : ℝ × ℝ
  fval : ℝ
  success : Bool
  evals : List (ℝ × ℝ)
  iterates : List (ℝ × ℝ)

/-- An abstract bounded minimizer, the shape of the external library call:
objective, initial point, box bounds. -/
def Solver : Type :=
  ((ℝ × ℝ) → ℝ) → (ℝ × ℝ) → ((ℝ × ℝ) × (ℝ × ℝ)) → SolverResult

/-- The single minimizer call optimize_with_history makes: the objective
over the two shipment frames, started at the initial guess, bounded by the
supplier box. -/
noncomputable def solverCall (S : Solver) (inbound outbound : List Row)
    (suppliers customers : List Point) : SolverResult :=
  S (objective inbound outbound) (initial_guess suppliers customers) (boundsOf suppliers)

/-- optimize_with_history from facility_location_problem.py: runs the
solver and returns (result.x, result.fun, cost_history), where cost_history
holds the objective value at every accepted iterate, as the callback
records it. -/
noncomputable def optimize_with_history (S : Solver) (inbound outbound : List Row)
    (suppliers customers : List Point) : (ℝ × ℝ) × ℝ × List ℝ :=
  let r := solverCall S inbound outbound suppliers customers
  (r.x, r.fval, r.iterates.map (objective inbound outbound))

/-- A concrete solver instance used in witnesses: it steps to the lower
corner of the box and stops there. It reports the objective value at its
final iterate and, when the box is feasible, evaluates the objective only
inside the box. -/
noncomputable def cornerSolver : Solver :=
  fun f _ b =>
    { x := (b.1.1, b.2.1), fval := f (b.1.1, b.2.1), success := true,
      evals := [(b.1.1, b.2.1)], iterates := [(b.1.1, b.2.1)] }

/-- The columns of a shipment row that the cost computation reads: latitude,
longitude and volume. -/
def rowData (r : Row) : ℝ × ℝ × ℝ := (r.latitude, r.longitude, r.volume)

/-- A concrete shipment row used in concrete instances: fixed node at
(51, 7), volume 100, derived columns not yet written. -/
noncomputable def sampleRow : Row :=
  { latitude := 51, longitude := 7, volume := 100, distanceCol := none, costCol := none }

/-- A concrete supplier point. -/
noncomputable def samplePoint : Point := { latitude := 50, longitude := 10 }

/-- A concrete customer point. -/
noncomputable def samplePoint2 : Point := { latitude := 52, longitude := 12 }

/-- Symmetry of the great-circle distance model. -/
theorem distance_km_symm (a b : ℝ × ℝ) : distance_km a b = distance_km b a := by
  unfold distance_km
  have h : toRadians a.2 - toRadians b.2 = -(toRadians b.2 - toRadians a.2) := by ring
  rw [h, Real.cos_neg]
  ring_nf

/-- The great-circle distance model is non-negative. -/
theorem distance_km_nonneg (a b : ℝ × ℝ) : 0 ≤ distance_km a b := by
  unfold distance_km
  have h1 : (0 : ℝ) ≤ EARTH_RADIUS_KM := by norm_num [EARTH_RADIUS_KM]
  exact mul_nonneg h1 (Real.arccos_nonneg _)

theorem foldl_min_le (xs : List ℝ) (x : ℝ) : xs.foldl min x ≤ x := by
  induction xs generalizing x with
  | nil => exact le_refl x
  | cons a t ih => exact le_trans (ih (min x a)) (min_le_left x a)

theorem le_foldl_max (xs : List ℝ) (x : ℝ) : x ≤ xs.foldl max x := by
  induction xs generalizing x with
  | nil => exact le_refl x
  | cons a t ih => exact le_trans (le_max_left x a) (ih (max x a))

/-- On a non-empty column the minimum is at most the maximum. -/
theorem colMin_le_colMax (xs : List ℝ) (h : xs ≠ []) : colMin xs ≤ colMax xs := by
  cases xs with
  | nil => exact absurd rfl h
  | cons x t => exact le_trans (foldl_min_le t x) (le_foldl_max t x)

/-- The row updates leave the columns the computation reads untouched. -/
theorem rowData_inboundRowUpdate (w : ℝ × ℝ) (dc vc : ℝ) (r : Row) :
    rowData (inboundRowUpdate w dc vc r) = rowData r := rfl

theorem rowData_outboundRowUpdate (w : ℝ × ℝ) (dc vc : ℝ) (r : Row) :
    rowData (outboundRowUpdate w dc vc r) = rowData r := rfl

/-- Overwriting the derived columns twice is the same as overwriting them
once with the second call's parameters. -/
theorem inboundRowUpdate_twice (w w2 : ℝ × ℝ) (dc vc dc2 vc2 : ℝ) (r : Row) :
    inboundRowUpdate w2 dc2 vc2 (inboundRowUpdate w dc vc r) =
      inboundRowUpdate w2 dc2 vc2 r := rfl

theorem outboundRowUpdate_twice (w w2 : ℝ × ℝ) (dc vc dc2 vc2 : ℝ) (r : Row) :
    outboundRowUpdate w2 dc2 vc2 (outboundRowUpdate w dc vc r) =
      outboundRowUpdate w2 dc2 vc2 r := rfl

/-- The Cost column an inbound update writes. -/
theorem costCol_inboundRowUpdate (w : ℝ × ℝ) (dc vc : ℝ) (r : Row) :
    (inboundRowUpdate w dc vc r).costCol =
      some (distance_km (r.latitude, r.longitude) w * dc + r.volume * vc) := rfl

/-- The Cost column an outbound update writes. -/
theorem costCol_outboundRowUpdate (w : ℝ × ℝ) (dc vc : ℝ) (r : Row) :
    (outboundRowUpdate w dc vc r).costCol =
      some (distance_km w (r.latitude, r.longitude) * dc + r.volume * vc) := rfl

/-- Claim C7: the great-circle distance function is symmetric, and as a
consequence swapping the direction of a shipment (the inbound node-to-candidate
order versus the outbound candidate-to-node order) produces the same row,
hence the same numeric cost. -/
theorem C7_distance_symmetric (a b w : ℝ × ℝ) (dc vc : ℝ) (r : Row) :
    distance_km a b = distance_km b a ∧
      inboundRowUpdate w dc vc r = outboundRowUpdate w dc vc r := by
  refine ⟨distance_km_symm a b, ?_⟩
  unfold inboundRowUpdate outboundRowUpdate
  rw [distance_km_symm (r.latitude, r.longitude) w]

/-- Claim C8: with non-negative volumes and non-negative rates, every
per-shipment cost written into the Cost column is non-negative and the
aggregate total cost is non-negative. -/
theorem C8_total_cost_nonneg (w : ℝ × ℝ) (inbound outbound : List Row) (dc vc : ℝ)
    (hin : ∀ r ∈ inbound, 0 ≤ r.volume) (hout : ∀ r ∈ outbound, 0 ≤ r.volume)
    (hdc : 0 ≤ dc) (hvc : 0 ≤ vc) :
    (∀ r ∈ (calculate_total_cost w inbound outbound dc vc).1, 0 ≤ r.costCol.getD 0) ∧
    (∀ r ∈ (calculate_total_cost w inbound outbound dc vc).2.1, 0 ≤ r.costCol.getD 0) ∧
    0 ≤ (calculate_total_cost w inbound outbound dc vc).2.2 := by
  have hrow_in : ∀ r ∈ inbound, 0 ≤ ((inboundRowUpdate w dc vc r).costCol.getD 0) := by
    intro r hr
    simp only [inboundRowUpdate, Option.getD_some]
    exact add_nonneg (mul_nonneg (distance_km_nonneg _ _) hdc) (mul_nonneg (hin r hr) hvc)
  have hrow_out : ∀ r ∈ outbound, 0 ≤ ((outboundRowUpdate w dc vc r).costCol.getD 0) := by
    intro r hr
    simp only [outboundRowUpdate, Option.getD_some]
    exact add_nonneg (mul_nonneg (distance_km_nonneg _ _) hdc) (mul_nonneg (hout r hr) hvc)
  refine ⟨?_, ?_, ?_⟩
  · intro r hr
    simp only [calculate_total_cost, List.mem_map] at hr
    obtain ⟨s, hs, rfl⟩ := hr
    exact hrow_in s hs
  · intro r hr
    simp only [calculate_total_cost, List.mem_map] at hr
    obtain ⟨s, hs, rfl⟩ := hr
    exact hrow_out s hs
  · simp only [calculate_total_cost, costColumnSum, List.map_map]
    refine add_nonneg (List.sum_nonneg ?_) (List.sum_nonneg ?_)
    · intro x hx
      simp only [List.mem_map, Function.comp] at hx
      obtain ⟨s, hs, rfl⟩ := hx
      exact hrow_in s hs
    · intro x hx
      simp only [List.mem_map, Function.comp] at hx
      obtain ⟨s, hs, rfl⟩ := hx
      exact hrow_out s hs

/-- Witness for C8 at a concrete input. -/
theorem C8_total_cost_nonneg_witness :
    0 ≤ (calculate_total_cost (50, 10) [sampleRow] [sampleRow] 0.5 10).2.2 :=
  (C8_total_cost_nonneg (50, 10) [sampleRow] [sampleRow] 0.5 10
    (by intro r hr; rw [List.mem_singleton] at hr; subst hr; norm_num [sampleRow])
    (by intro r hr; rw [List.mem_singleton] at hr; subst hr; norm_num [sampleRow])
    (by norm_num) (by norm_num)).2.2

/-- Claim C6: the aggregate objective equals the sum over all inbound and
outbound shipments of distance times rate plus volume times rate, with the
distance taken between the fixed node and the candidate, at the default
rates 0.5 per km and 10 per cubic metre. -/
theorem C6_total_cost_formula (w : ℝ × ℝ) (inbound outbound : List Row) :
    (calculate_total_cost_default w inbound outbound).2.2 =
      (inbound.map (fun r =>
          distance_km (r.latitude, r.longitude) w * 0.5 + r.volume * 10)).sum +
      (outbound.map (fun r =>
          distance_km (r.latitude, r.longitude) w * 0.5 + r.volume * 10)).sum := by
  unfold calculate_total_cost_default calculate_total_cost costColumnSum
  simp only [List.map_map]
  have h1 : ((fun r => r.costCol.getD 0) ∘ inboundRowUpdate w 0.5 10) =
      (fun r : Row => distance_km (r.latitude, r.longitude) w * 0.5 + r.volume * 10) := by
    funext r
    show (inboundRowUpdate w 0.5 10 r).costCol.getD 0 = _
    rw [costCol_inboundRowUpdate, Option.getD_some]
  have h2 : ((fun r => r.costCol.getD 0) ∘ outboundRowUpdate w 0.5 10) =
      (fun r : Row => distance_km (r.latitude, r.longitude) w * 0.5 + r.volume * 10) := by
    funext r
    show (outboundRowUpdate w 0.5 10 r).costCol.getD 0 = _
    rw [costCol_outboundRowUpdate, Option.getD_some,
      distance_km_symm w (r.latitude, r.longitude)]
  rw [h1, h2]

/-- Counterexample to claim C1 as stated: one call of the cost aggregator
changes the inbound frame it was given (the Distance_km column, previously
absent, is now set). -/
theorem C1_aggregator_mutates :
    (calculate_total_cost_default (50, 10) [sampleRow] [sampleRow]).1 ≠ [sampleRow] := by
  intro h
  have h1 : inboundRowUpdate (50, 10) 0.5 10 sampleRow = sampleRow := by
    have h0 := congrArg List.head? h
    simpa [calculate_total_cost_default, calculate_total_cost] using h0
  have h2 := congrArg Row.distanceCol h1
  simp [inboundRowUpdate, sampleRow] at h2

/-- Claim C1 as amended: the aggregator overwrites only the derived
Distance_km and Cost columns of the input frames; the latitude, longitude
and volume columns it reads are unchanged, so calling it again on the
frames a previous call returned, with any other candidate and rates, gives
exactly the total a call on the original frames would give. -/
theorem C1_aggregator_frame (w w2 : ℝ × ℝ) (inbound outbound : List Row)
    (dc vc dc2 vc2 : ℝ) :
    ((calculate_total_cost w inbound outbound dc vc).1.map rowData =
        inbound.map rowData ∧
      (calculate_total_cost w inbound outbound dc vc).2.1.map rowData =
        outbound.map rowData) ∧
    (calculate_total_cost w2 (calculate_total_cost w inbound outbound dc vc).1
        (calculate_total_cost w inbound outbound dc vc).2.1 dc2 vc2).2.2 =
      (calculate_total_cost w2 inbound outbound dc2 vc2).2.2 := by
  refine ⟨⟨?_, ?_⟩, ?_⟩
  · simp only [calculate_total_cost, List.map_map]
    congr 1
  · simp only [calculate_total_cost, List.map_map]
    congr 1
  · simp only [calculate_total_cost, costColumnSum, List.map_map]
    congr 2

/-- The corner solver reports the objective value at its final iterate, the
contract of the external minimizer result (fun is the objective at x). -/
theorem cornerSolver_reports_fval :
    ∀ (f : (ℝ × ℝ) → ℝ) (x0 : ℝ × ℝ) (b : (ℝ × ℝ) × (ℝ × ℝ)),
      (cornerSolver f x0 b).fval = f (cornerSolver f x0 b).x :=
  fun _ _ _ => rfl

/-- On a feasible box the corner solver evaluates the objective only inside
the box, the contract of the external bounded minimizer. -/
theorem cornerSolver_evals_in_box :
    ∀ (f : (ℝ × ℝ) → ℝ) (x0 : ℝ × ℝ) (b : (ℝ × ℝ) × (ℝ × ℝ)),
      b.1.1 ≤ b.1.2 → b.2.1 ≤ b.2.2 → ∀ p ∈ (cornerSolver f x0 b).evals, inBox b p := by
  intro f x0 b h1 h2 p hp
  have hp2 : p = (b.1.1, b.2.1) := by
    simpa [cornerSolver] using hp
  subst hp2
  exact ⟨le_refl _, h1, le_refl _, h2⟩

/-- Claim C4: for non-empty supplier and customer frames, the initial guess
is the midpoint of the mean supplier location and the mean customer
location, componentwise. -/
theorem C4_initial_guess_midpoint (suppliers customers : List Point)
    (hs : suppliers ≠ []) (hc : customers ≠ []) :
    initial_guess suppliers customers =
      (((latitudes suppliers).sum / (suppliers.length : ℝ) +
          (latitudes customers).sum / (customers.length : ℝ)) / 2,
       ((longitudes suppliers).sum / (suppliers.length : ℝ) +
          (longitudes customers).sum / (customers.length : ℝ)) / 2) := by
  unfold initial_guess colMean
  simp only [latitudes, longitudes, List.length_map]

/-- Witness for C4 at concrete one-point frames. -/
theorem C4_initial_guess_midpoint_witness :
    initial_guess [samplePoint] [samplePoint2] =
      (((latitudes [samplePoint]).sum / (([samplePoint] : List Point).length : ℝ) +
          (latitudes [samplePoint2]).sum / (([samplePoint2] : List Point).length : ℝ)) / 2,
       ((longitudes [samplePoint]).sum / (([samplePoint] : List Point).length : ℝ) +
          (longitudes [samplePoint2]).sum / (([samplePoint2] : List Point).length : ℝ)) / 2) :=
  C4_initial_guess_midpoint [samplePoint] [samplePoint2]
    (List.cons_ne_nil _ _) (List.cons_ne_nil _ _)

/-- Claim C2 evaluated at the failing scenario: with zero shipments the
optimizer does not fail fast; for every solver that reports the objective
value at its final iterate, it returns a result whose cost is 0. -/
theorem C2_empty_shipments_return_zero (S : Solver)
    (hS : ∀ f x0 b, (S f x0 b).fval = f (S f x0 b).x)
    (suppliers customers : List Point) :
    (optimize_with_history S [] [] suppliers customers).2.1 = 0 := by
  show (solverCall S [] [] suppliers customers).fval = 0
  unfold solverCall
  rw [hS]
  simp [objective, calculate_total_cost_default, calculate_total_cost, costColumnSum]

/-- Witness for C2 at a concrete run. -/
theorem C2_empty_shipments_return_zero_witness :
    (optimize_with_history cornerSolver [] [] [samplePoint] [samplePoint2]).2.1 = 0 :=
  C2_empty_shipments_return_zero cornerSolver cornerSolver_reports_fval
    [samplePoint] [samplePoint2]

/-- Claim C3, what the code actually does: the returned triple is built
only from the final iterate, its objective value and the recorded history;
the success flag of the solver result is discarded, so a run the solver
reports as non-converged returns exactly what the same run marked converged
would return, and callers cannot distinguish the two. -/
theorem C3_no_convergence_marker (S : Solver) (inbound outbound : List Row)
    (suppliers customers : List Point) :
    optimize_with_history
        (fun f x0 b => { S f x0 b with success := false })
        inbound outbound suppliers customers =
      optimize_with_history
        (fun f x0 b => { S f x0 b with success := true })
        inbound outbound suppliers customers := rfl

/-- Claim C5: for a solver that, on a feasible box, evaluates its objective
only inside the box (the documented behaviour of the external bounded
minimizer), every candidate at which the cost function is evaluated during
a run lies within the supplier bounding box; the bounds argument is
computed from the supplier frame alone. -/
theorem C5_evaluations_in_supplier_box (S : Solver)
    (hS : ∀ f x0 b, b.1.1 ≤ b.1.2 → b.2.1 ≤ b.2.2 → ∀ p ∈ (S f x0 b).evals, inBox b p)
    (inbound outbound : List Row) (suppliers customers : List Point)
    (hsup : suppliers ≠ []) :
    ∀ p ∈ (solverCall S inbound outbound suppliers customers).evals,
      colMin (latitudes suppliers) ≤ p.1 ∧ p.1 ≤ colMax (latitudes suppliers) ∧
        colMin (longitudes suppliers) ≤ p.2 ∧ p.2 ≤ colMax (longitudes suppliers) := by
  intro p hp
  have hlat : colMin (latitudes suppliers) ≤ colMax (latitudes suppliers) :=
    colMin_le_colMax _ (fun h => hsup (by simpa [latitudes, List.map_eq_nil_iff] using h))
  have hlon : colMin (longitudes suppliers) ≤ colMax (longitudes suppliers) :=
    colMin_le_colMax _ (fun h => hsup (by simpa [longitudes, List.map_eq_nil_iff] using h))
  exact hS (objective inbound outbound) (initial_guess suppliers customers)
    (boundsOf suppliers) hlat hlon p hp

/-- Witness for C5 at a concrete run of the corner solver. -/
theorem C5_evaluations_in_supplier_box_witness :
    colMin (latitudes [samplePoint]) ≤ (50 : ℝ) ∧
      (50 : ℝ) ≤ colMax (latitudes [samplePoint]) ∧
      colMin (longitudes [samplePoint]) ≤ (10 : ℝ) ∧
      (10 : ℝ) ≤ colMax (longitudes [samplePoint]) :=
  C5_evaluations_in_supplier_box cornerSolver cornerSolver_evals_in_box
    [] [] [samplePoint] [samplePoint2] (List.cons_ne_nil _ _) ((50 : ℝ), (10 : ℝ))
    (by simp [solverCall, cornerSolver, boundsOf, latitudes, longitudes, colMin, samplePoint])

/-- Claim C9: the optimizer is deterministic: two runs on equal inputs give
equal optimal coordinates, equal minimum cost and equal trajectory length. -/
theorem C9_deterministic (S : Solver) (inb1 out1 : List Row) (sup1 cust1 : List Point)
    (inb2 out2 : List Row) (sup2 cust2 : List Point)
    (h1 : inb1 = inb2) (h2 : out1 = out2) (h3 : sup1 = sup2) (h4 : cust1 = cust2) :
    (optimize_with_history S inb1 out1 sup1 cust1).1 =
        (optimize_with_history S inb2 out2 sup2 cust2).1 ∧
      (optimize_with_history S inb1 out1 sup1 cust1).2.1 =
        (optimize_with_history S inb2 out2 sup2 cust2).2.1 ∧
      (optimize_with_history S inb1 out1 sup1 cust1).2.2.length =
        (optimize_with_history S inb2 out2 sup2 cust2).2.2.length := by
  subst h1 h2 h3 h4
  exact ⟨rfl, rfl, rfl⟩

/-- Witness for C9 at two concrete identical runs. -/
theorem C9_deterministic_witness :
    (optimize_with_history cornerSolver [sampleRow] [] [samplePoint] [samplePoint2]).1 =
        (optimize_with_history cornerSolver [sampleRow] [] [samplePoint] [samplePoint2]).1 ∧
      (optimize_with_history cornerSolver [sampleRow] [] [samplePoint] [samplePoint2]).2.1 =
        (optimize_with_history cornerSolver [sampleRow] [] [samplePoint] [samplePoint2]).2.1 ∧
      (optimize_with_history cornerSolver [sampleRow] [] [samplePoint] [samplePoint2]).2.2.length =
        (optimize_with_history cornerSolver [sampleRow] [] [samplePoint] [samplePoint2]).2.2.length :=
  C9_deterministic cornerSolver [sampleRow] [] [samplePoint] [samplePoint2]
    [sampleRow] [] [samplePoint] [samplePoint2] rfl rfl rfl rfl

/-- Claim C10: for every solver that reports the objective value at its
final iterate, the cost the optimizer returns equals the aggregate
objective, at the default rates, evaluated at the coordinates it returns. -/
theorem C10_cost_matches_coords (S : Solver)
    (hS : ∀ f x0 b, (S f x0 b).fval = f (S f x0 b).x)
    (inbound outbound : List Row) (suppliers customers : List Point) :
    (optimize_with_history S inbound outbound suppliers customers).2.1 =
      (calculate_total_cost_default
          (optimize_with_history S inbound outbound suppliers customers).1
          inbound outbound).2.2 := by
  show (solverCall S inbound outbound suppliers customers).fval = _
  unfold solverCall
  exact hS _ _ _

/-- Witness for C10 at a concrete run. -/
theorem C10_cost_matches_coords_witness :
    (optimize_with_history cornerSolver [sampleRow] [sampleRow]
        [samplePoint] [samplePoint2]).2.1 =
      (calculate_total_cost_default
          (optimize_with_history cornerSolver [sampleRow] [sampleRow]
              [samplePoint] [samplePoint2]).1
          [sampleRow] [sampleRow]).2.2 :=
  C10_cost_matches_coords cornerSolver cornerSolver_reports_fval
    [sampleRow] [sampleRow] [samplePoint] [samplePoint2]

end FacilityLocation
